import Mathlib

/-!
Shallow embedding of the dispatch and response-correlation layer of the
cairo language server (`crates/cairo-lang-language-server/src/server/api/mod.rs`
and `crates/cairo-lang-language-server/src/server/client.rs`) and of the
stable-token-stream iterator (`crates/cairo-lang-syntax/src/node/with_db.rs`).

Pure data (JSON values, ids, error codes) is modelled directly; external
collaborators (serde decoding of per-method parameter types, feature handlers,
the wire channel) are abstract inputs, per the specification's interface
descriptions.
-/

namespace LS

/-- Flat model of `serde_json::Value` payloads. The dispatch layer treats
params and results opaquely, so the internal structure of compound JSON
values is irrelevant here. -/
inductive Json where
  | null : Json
  | boolVal (b : Bool) : Json
  | numVal (n : Int) : Json
  | strVal (s : String) : Json
deriving DecidableEq, Repr, Inhabited

/-- Model of `lsp_server::RequestId`: an integer or a string. -/
inductive RequestId where
  | num (n : Int) : RequestId
  | str (s : String) : RequestId
deriving DecidableEq, Repr, Inhabited

/-- Model of `lsp_server::ErrorCode` (external crate), with the JSON-RPC / LSP
numeric values used by `code as i32`. -/
inductive ErrorCode where
  | ParseError : ErrorCode
  | InvalidRequest : ErrorCode
  | MethodNotFound : ErrorCode
  | InvalidParams : ErrorCode
  | InternalError : ErrorCode
  | ServerNotInitialized : ErrorCode
  | RequestCanceled : ErrorCode
  | ContentModified : ErrorCode
deriving DecidableEq, Repr

def ErrorCode.toInt : ErrorCode → Int
  | .ParseError => -32700
  | .InvalidRequest => -32600
  | .MethodNotFound => -32601
  | .InvalidParams => -32602
  | .InternalError => -32603
  | .ServerNotInitialized => -32002
  | .RequestCanceled => -32800
  | .ContentModified => -32801

/-- Model of `anyhow::Error` (external crate): a descriptive cause whose
`Display` (and `Debug` as used here) rendering is its message. -/
structure AnyhowError where
  message : String
deriving DecidableEq, Repr

/-- The error envelope `LSPError` of `server/api/mod.rs`: a protocol error
code paired with an underlying cause. -/
structure LSPError where
  code : ErrorCode
  error : AnyhowError
deriving DecidableEq, Repr

/-- The `fmt::Display` impl for `LSPError`: forwards to the cause
(`self.error.fmt(f)`); the code is not printed. -/
def LSPError.displayFmt (e : LSPError) : String :=
  e.error.message

/-- The `fmt::Debug` impl for `LSPError`: forwards to the cause
(`self.error.fmt(f)`); the code is not printed. -/
def LSPError.debugFmt (e : LSPError) : String :=
  e.error.message

/-- Model of `lsp_server::Request`: id, method and raw params. -/
structure Request where
  id : RequestId
  method : String
  params : Json
deriving DecidableEq, Repr

/-- Model of `lsp_server::Notification`: method and raw params. -/
structure Notification where
  method : String
  params : Json
deriving DecidableEq, Repr

/-- Model of `lsp_server::ResponseError`: numeric code and message (the
optional data field is unused by this layer). -/
structure ResponseError where
  code : Int
  message : String
deriving DecidableEq, Repr

/-- Model of `lsp_server::Response`: id plus optional result and error. -/
structure Response where
  id : RequestId
  result : Option Json
  error : Option ResponseError
deriving DecidableEq, Repr

/-- Model of `lsp_server::Response::new_ok`. -/
def Response.new_ok (id : RequestId) (res : Json) : Response :=
  { id := id, result := some res, error := none }

/-- Model of `lsp_server::Response::new_err`. -/
def Response.new_err (id : RequestId) (code : Int) (message : String) : Response :=
  { id := id, result := none, error := some { code := code, message := message } }

/-- Model of `lsp_server::Message`: the outbound wire message sum. -/
inductive Message where
  | request (id : RequestId) (method : String) (params : Json) : Message
  | notification (method : String) (params : Json) : Message
  | response (r : Response) : Message
deriving DecidableEq, Repr

/-- Modelled from the spec: the `ClientSender` of `server/connection.rs` (not
under `src/` here) either delivers an outbound message or fails (channel
closed), and the failure is returned as an error to the caller. The model
carries an oracle of outcomes for successive sends (an empty oracle means
every send succeeds) and records the messages actually delivered. -/
structure ClientSender where
  outcomes : List Bool
  sent : List Message

/-- One `send` on the channel: consume the next oracle outcome (success when
the oracle is exhausted); on success the message is appended to `sent`, on
failure an error is returned and nothing is delivered. -/
def ClientSender.send (s : ClientSender) (m : Message) : ClientSender × Except String Unit :=
  match s.outcomes with
  | [] => ({ s with sent := s.sent ++ [m] }, Except.ok ())
  | true :: rest => ({ outcomes := rest, sent := s.sent ++ [m] }, Except.ok ())
  | false :: rest => ({ outcomes := rest, sent := s.sent }, Except.error "channel closed")

/-- Modelled from the spec: the `BackgroundSchedule` enumeration of
`server/schedule.rs` (not under `src/` here) — the ScheduleClass set
{LatencySensitive, Worker, Fmt}. -/
inductive BackgroundSchedule where
  | LatencySensitive : BackgroundSchedule
  | Worker : BackgroundSchedule
  | Fmt : BackgroundSchedule
deriving DecidableEq, Repr

/-- The data captured by the closure a `Task::local` wraps: either a routed
request (method, id, decoded params — `local_request_task`), a routed
notification (static method id, decoded params — `local_notification_task`),
or an arbitrary task produced by a response handler (abstract tag). -/
inductive LocalWork where
  | requestWork (method : String) (id : RequestId) (params : Json) : LocalWork
  | notificationWork (methodId : String) (params : Json) : LocalWork
  | handlerWork (tag : Nat) : LocalWork
deriving DecidableEq, Repr

/-- The data captured by the two-phase closure a `Task::background` wraps
(`background_request_task`): method, original id and decoded params. -/
structure BgWork where
  method : String
  id : RequestId
  params : Json
deriving DecidableEq, Repr

instance {ε α : Type} [DecidableEq ε] [DecidableEq α] : DecidableEq (Except ε α)
  | .ok x, .ok y =>
    if h : x = y then isTrue (by rw [h]) else isFalse (by simp [h])
  | .ok _, .error _ => isFalse (by simp)
  | .error _, .ok _ => isFalse (by simp)
  | .error e, .error f =>
    if h : e = f then isTrue (by rw [h]) else isFalse (by simp [h])

/-- Modelled from the spec: the `Task` sum of `server/schedule.rs` (not under
`src/` here) — Nothing / Immediate(id, result) / Local(work) /
Background(class, snapshotFn). Local and background work is represented by
the data the router's closures capture; an immediate result is a success
payload or an `LSPError`. -/
inductive Task where
  | nothing : Task
  | immediate (id : RequestId) (result : Except LSPError Json) : Task
  | localTask (work : LocalWork) : Task
  | background (schedule : BackgroundSchedule) (work : BgWork) : Task
deriving DecidableEq, Repr

/-- The variant (and, for background, the schedule class) of a task. -/
inductive TaskShape where
  | nothingShape : TaskShape
  | immediateShape : TaskShape
  | localShape : TaskShape
  | backgroundShape (schedule : BackgroundSchedule) : TaskShape
deriving DecidableEq, Repr

def Task.shape : Task → TaskShape
  | .nothing => .nothingShape
  | .immediate _ _ => .immediateShape
  | .localTask _ => .localShape
  | .background s _ => .backgroundShape s

/-- Modelled from the spec: executing a task (scheduler in
`server/schedule.rs`, not under `src/` here). *Nothing* has no observable
effect; *Immediate(id, result)* synchronously emits exactly one Response;
*Local* and *Background* run external handler code, whose emissions are
given by the abstract parameters. -/
def Task.execEmits (localEmits : LocalWork → List Message)
    (bgEmits : BackgroundSchedule → BgWork → List Message) : Task → List Message
  | .nothing => []
  | .immediate id result =>
    [Message.response (match result with
      | .ok res => Response.new_ok id res
      | .error err => Response.new_err id err.code.toInt err.error.message)]
  | .localTask w => localEmits w
  | .background s w => bgEmits s w

/-- Per-method deserialization of raw params into the handler's expected
parameter type (the external serde impls of each `R::Params` /
`N::Params`); an error carries the serde error rendering. The decoded value
is kept as a JSON value since the dispatch layer treats it opaquely. -/
def ParamsDecoder : Type :=
  String → Json → Except String Json

namespace Api

/-- Model of `cast_request::<R>`: extract the id and decode params; a decode
failure becomes an `LSPError` with code `InternalError` and an
`anyhow!("JSON parsing failure:\n{json_error}")` cause. -/
def cast_request (dec : ParamsDecoder) (method : String) (req : Request) :
    Except LSPError (RequestId × Json) :=
  match dec method req.params with
  | .ok params => .ok (req.id, params)
  | .error e =>
    .error { code := ErrorCode.InternalError
             error := { message := "JSON parsing failure:\n" ++ e } }

/-- Model of `cast_notification::<N>`: decode params and pair them with the
static method name; a decode failure becomes an `InternalError` `LSPError`. -/
def cast_notification (dec : ParamsDecoder) (method : String) (n : Notification) :
    Except LSPError (String × Json) :=
  match dec method n.params with
  | .ok params => .ok (method, params)
  | .error e =>
    .error { code := ErrorCode.InternalError
             error := { message := "JSON parsing failure:\n" ++ e } }

/-- Model of `local_request_task::<R>`: cast, then wrap a local closure over
the id and decoded params. -/
def local_request_task (dec : ParamsDecoder) (method : String) (req : Request) :
    Except LSPError Task :=
  (cast_request dec method req).map fun x =>
    Task.localTask (LocalWork.requestWork method x.1 x.2)

/-- Model of `background_request_task::<R>`: cast, then wrap a two-phase
background closure over the id and decoded params, under the given
schedule. -/
def background_request_task (dec : ParamsDecoder) (method : String) (req : Request)
    (schedule : BackgroundSchedule) : Except LSPError Task :=
  (cast_request dec method req).map fun x =>
    Task.background schedule { method := method, id := x.1, params := x.2 }

/-- Model of `local_notification_task::<N>`: cast, then wrap a local closure
over the static method id and decoded params. -/
def local_notification_task (dec : ParamsDecoder) (method : String) (n : Notification) :
    Except LSPError Task :=
  (cast_notification dec method n).map fun x =>
    Task.localTask (LocalWork.notificationWork x.1 x.2)

/-- The method strings of the registered request handlers. The `lsp_types`
constants are the protocol's published identifiers; the three `crate::lsp::ext`
constants (`ExpandMacro`, `ProvideVirtualFile`, `ViewAnalyzedCrates`) are not
under `src/` and are modelled from the spec as the server's distinct custom
method strings. -/
def requestMethods : List String :=
  ["textDocument/codeAction", "textDocument/completion", "workspace/executeCommand",
   "cairo/expandMacro", "textDocument/formatting", "textDocument/definition",
   "textDocument/hover", "vfs/provide", "textDocument/semanticTokens/full",
   "cairo/viewAnalyzedCrates"]

/-- The `match request.method.as_str()` table of `api::request`
(`route_request`): `None` models the default arm's early
`return Task::nothing()`. -/
def routeRequest (dec : ParamsDecoder) (req : Request) :
    Option (Except LSPError Task) :=
  match req.method with
    | "textDocument/codeAction" =>
      some (background_request_task dec "textDocument/codeAction" req
        BackgroundSchedule.LatencySensitive)
    | "textDocument/completion" =>
      some (background_request_task dec "textDocument/completion" req
        BackgroundSchedule.LatencySensitive)
    | "workspace/executeCommand" =>
      some (local_request_task dec "workspace/executeCommand" req)
    | "cairo/expandMacro" =>
      some (background_request_task dec "cairo/expandMacro" req
        BackgroundSchedule.Worker)
    | "textDocument/formatting" =>
      some (background_request_task dec "textDocument/formatting" req
        BackgroundSchedule.Fmt)
    | "textDocument/definition" =>
      some (background_request_task dec "textDocument/definition" req
        BackgroundSchedule.LatencySensitive)
    | "textDocument/hover" =>
      some (background_request_task dec "textDocument/hover" req
        BackgroundSchedule.LatencySensitive)
    | "vfs/provide" =>
      some (background_request_task dec "vfs/provide" req
        BackgroundSchedule.LatencySensitive)
    | "textDocument/semanticTokens/full" =>
      some (background_request_task dec "textDocument/semanticTokens/full" req
        BackgroundSchedule.Worker)
    | "cairo/viewAnalyzedCrates" =>
      some (background_request_task dec "cairo/viewAnalyzedCrates" req
        BackgroundSchedule.Worker)
    | _ => none

/-- Model of `api::request` (`route_request`): clone the id, match the method
against the static table; unknown method returns the Nothing task at once;
`.unwrap_or_else` turns a routing error (params decode failure) into
`Task::immediate(id, Err(error))` addressed to the original id. -/
def request (dec : ParamsDecoder) (req : Request) : Task :=
  let id := req.id
  match routeRequest dec req with
  | none => Task.nothing
  | some (.ok task) => task
  | some (.error e) => Task.immediate id (.error e)

/-- The method strings of the registered notification handlers (the
`lsp_types` published identifiers). -/
def notificationMethods : List String :=
  ["$/cancelRequest", "textDocument/didChange", "workspace/didChangeConfiguration",
   "workspace/didChangeWatchedFiles", "textDocument/didClose",
   "textDocument/didOpen", "textDocument/didSave"]

/-- The `match notification.method.as_str()` table of `api::notification`
(`route_notification`): `None` models the default arm's early
`return Task::nothing()`. -/
def routeNotification (dec : ParamsDecoder) (n : Notification) :
    Option (Except LSPError Task) :=
  match n.method with
    | "$/cancelRequest" =>
      some (local_notification_task dec "$/cancelRequest" n)
    | "textDocument/didChange" =>
      some (local_notification_task dec "textDocument/didChange" n)
    | "workspace/didChangeConfiguration" =>
      some (local_notification_task dec "workspace/didChangeConfiguration" n)
    | "workspace/didChangeWatchedFiles" =>
      some (local_notification_task dec "workspace/didChangeWatchedFiles" n)
    | "textDocument/didClose" =>
      some (local_notification_task dec "textDocument/didClose" n)
    | "textDocument/didOpen" =>
      some (local_notification_task dec "textDocument/didOpen" n)
    | "textDocument/didSave" =>
      some (local_notification_task dec "textDocument/didSave" n)
    | _ => none

/-- Model of `api::notification` (`route_notification`): match the method
against the static table; unknown method returns the Nothing task at once;
`.unwrap_or_else` turns a routing error (params decode failure) into the
Nothing task as well, since notifications have no response channel. -/
def notification (dec : ParamsDecoder) (n : Notification) : Task :=
  match routeNotification dec n with
  | none => Task.nothing
  | some (.ok task) => task
  | some (.error _) => Task.nothing

end Api

/-- The expected result type `R::Result` of an outbound request, as the
response-handling closure of `Requester::request` observes it: either the
unit type `()` (recognised through the `TypeId` comparison, and deserialized
from JSON `null` only) or some other type with its external serde decoder. -/
inductive ResultType where
  | unitTy : ResultType
  | otherTy (decode : Json → Option Json) : ResultType

/-- The `TypeId::of::<R::Result>() == TypeId::of::<()>()` comparison. -/
def ResultType.isUnit : ResultType → Bool
  | .unitTy => true
  | .otherTy _ => false

/-- The `serde_json::from_value` deserialization into `R::Result`: the unit
type decodes from `null` only (to the value standing for `()`); other types
use their own decoder. -/
def ResultType.decode : ResultType → Json → Option Json
  | .unitTy, v => if v = Json.null then some Json.null else none
  | .otherTy d, v => d v

/-- A stored `ResponseBuilder`: the closure registered by
`Requester::request`, from the incoming response to the task it produces.
The second component is ghost instrumentation recording the arguments with
which the registered `response_handler` was invoked (empty when it was not
invoked); the Rust closure returns only the task. -/
def ResponseBuilderFn : Type :=
  Response → Task × List Json

/-- The closure body that `Requester::request` registers (client.rs lines
100–133): a peer-reported error yields Nothing without invoking the handler;
a result is deserialized and, on success, handed to the handler, whose task
is returned; a response with neither invokes the handler with a synthesized
unit value when the expected type is `()` (discarding its task) and yields
Nothing in every neither-branch case. -/
def responseBuilder (rt : ResultType) (response_handler : Json → Task) :
    ResponseBuilderFn :=
  fun response =>
    match response.error, response.result with
    | some _, _ => (Task.nothing, [])
    | none, some res =>
      match rt.decode res with
      | some v => (response_handler v, [v])
      | none => (Task.nothing, [])
    | none, none =>
      if rt.isUnit then
        match rt.decode Json.null with
        | some u =>
          let _ := response_handler u
          (Task.nothing, [u])
        | none => (Task.nothing, [])
      else
        (Task.nothing, [])

/-- Model of `Notifier` (client.rs): a clone of the client sender. -/
structure Notifier where
  sender : ClientSender

/-- Model of `Notifier::notify`: send one outbound notification message;
a send failure is returned to the caller. -/
def Notifier.notify (n : Notifier) (method : String) (params : Json) :
    Notifier × Except String Unit :=
  let r := n.sender.send (Message.notification method params)
  ({ sender := r.1 }, r.2)

/-- Model of `Responder` (client.rs): a clone of the client sender. -/
structure Responder where
  sender : ClientSender

/-- The wire message `Responder::respond` builds: `Response::new_ok(id, res)`
on Ok, `Response::new_err(id, code as i32, format!("{error}"))` on an
`LSPError { code, error }`. -/
def respondMessage (id : RequestId) (result : Except LSPError Json) : Response :=
  match result with
  | .ok res => Response.new_ok id res
  | .error err => Response.new_err id err.code.toInt err.error.message

/-- Model of `Responder::respond`: send the response message; a send failure
is returned to the caller. -/
def Responder.respond (r : Responder) (id : RequestId) (result : Except LSPError Json) :
    Responder × Except String Unit :=
  let s := r.sender.send (Message.response (respondMessage id result))
  ({ sender := s.1 }, s.2)

/-- Look a handler up in the response-handler map (`FxHashMap` lookup). -/
def lookupHandler (hs : List (RequestId × ResponseBuilderFn)) (id : RequestId) :
    Option ResponseBuilderFn :=
  (hs.find? fun p => decide (p.1 = id)).map Prod.snd

/-- Insert into the response-handler map, replacing any entry with the same
key (`FxHashMap::insert`). -/
def insertHandler (hs : List (RequestId × ResponseBuilderFn)) (id : RequestId)
    (b : ResponseBuilderFn) : List (RequestId × ResponseBuilderFn) :=
  (id, b) :: hs.filter fun p => decide (p.1 ≠ id)

/-- Remove from the response-handler map (`FxHashMap::remove`). -/
def removeHandler (hs : List (RequestId × ResponseBuilderFn)) (id : RequestId) :
    List (RequestId × ResponseBuilderFn) :=
  hs.filter fun p => decide (p.1 ≠ id)

/-- Two's-complement wrap-around into the `i32` range, the semantics of a
release-mode `i32` addition overflow. -/
def wrapI32 (n : Int) : Int :=
  (n + 2147483648) % 4294967296 - 2147483648

/-- Model of `Requester` (client.rs): the sender, the `i32` counter for the
next outbound request id (an integer kept in the `i32` range by explicit
wrap-around at each increment), and the response-handler map. -/
structure Requester where
  sender : ClientSender
  next_request_id : Int
  response_handlers : List (RequestId × ResponseBuilderFn)

/-- Model of `Requester::request` in source order: build and register the
response closure under `next_request_id`, send the outbound request message
(a failure propagates at the `?`, after the handler was already inserted and
before the counter moves), then increment `next_request_id` — an `i32`
increment, so it wraps past `i32::MAX` (release-mode two's-complement).
Params serialization (`serde_json::to_value`) is modelled as the identity on
the already-JSON params value. -/
def Requester.request (rq : Requester) (method : String) (params : Json)
    (rt : ResultType) (response_handler : Json → Task) :
    Requester × Except String Unit :=
  let serialized_params := params
  let id := RequestId.num rq.next_request_id
  let handlers := insertHandler rq.response_handlers id (responseBuilder rt response_handler)
  let s := rq.sender.send (Message.request id method serialized_params)
  match s.2 with
  | .error e =>
    ({ rq with sender := s.1, response_handlers := handlers }, .error e)
  | .ok _ =>
    ({ sender := s.1
       next_request_id := wrapI32 (rq.next_request_id + 1)
       response_handlers := handlers }, .ok ())

/-- Model of `Requester::pop_response_task`: remove the handler registered
for the response's id and invoke it; with no handler registered, log and
return the Nothing task (the ghost invocation record is empty). -/
def Requester.pop_response_task (rq : Requester) (response : Response) :
    Requester × (Task × List Json) :=
  match lookupHandler rq.response_handlers response.id with
  | some handler =>
    ({ rq with response_handlers := removeHandler rq.response_handlers response.id },
     handler response)
  | none => (rq, (Task.nothing, []))

/-- Model of `Client` (client.rs). -/
structure Client where
  notifier : Notifier
  responder : Responder
  requester : Requester

/-- Model of `Client::new`: clones of one sender; the requester starts with
`next_request_id = 1` and an empty handler map. -/
def Client.new (sender : ClientSender) : Client :=
  { notifier := { sender := sender }
    responder := { sender := sender }
    requester :=
      { sender := sender
        next_request_id := 1
        response_handlers := [] } }

/-- One interaction with a connection's `Requester`: either the server issues
an outbound request, or an inbound response is consumed through
`pop_response_task`. -/
inductive ClientEvent where
  | outboundReq (method : String) (params : Json) (rt : ResultType)
      (response_handler : Json → Task) : ClientEvent
  | inboundResp (response : Response) : ClientEvent

/-- Apply one event to the requester state. -/
def stepEvent (rq : Requester) : ClientEvent → Requester
  | .outboundReq m p rt h => (rq.request m p rt h).1
  | .inboundResp r => (rq.pop_response_task r).1

/-- Run a sequence of events on the requester state. -/
def runEvents (rq : Requester) (evs : List ClientEvent) : Requester :=
  evs.foldl stepEvent rq

/-- Check, along a run, that whenever an outbound request is issued the id
about to be assigned has no response handler still registered under it. -/
def noReuseCheck (rq : Requester) : List ClientEvent → Bool
  | [] => true
  | ev :: rest =>
    (match ev with
     | .outboundReq _ _ _ _ =>
       (lookupHandler rq.response_handlers (RequestId.num rq.next_request_id)).isNone
     | .inboundResp _ => true)
    && noReuseCheck (stepEvent rq ev) rest

/-- The number of outbound-request events in a run. -/
def countReqs : List ClientEvent → Nat
  | [] => 0
  | ClientEvent.outboundReq _ _ _ _ :: rest => countReqs rest + 1
  | ClientEvent.inboundResp _ :: rest => countReqs rest

/-- The ids of the outbound request messages among sent messages. -/
def sentRequestIds (msgs : List Message) : List RequestId :=
  msgs.filterMap fun m =>
    match m with
    | Message.request id _ _ => some id
    | _ => none

/-- The id sequence 1, 2, …, k. -/
def consecIds (k : Nat) : List RequestId :=
  (List.range k).map fun i => RequestId.num ((i : Int) + 1)

end LS

namespace StableTok

/-- Model of `cairo_lang_stable_token::StableSpan`: a start/end string
range. -/
structure StableSpan where
  start : Nat
  stop : Nat
deriving DecidableEq, Repr

/-- Model of `cairo_lang_stable_token::StableToken`: token text plus an
optional span. -/
structure StableToken where
  content : String
  span : Option StableSpan
deriving DecidableEq, Repr

/-- An opaque syntax node (its green-tree contents live outside this layer,
behind the database queries below). -/
structure SyntaxNode where
  ident : Nat
deriving DecidableEq, Repr

/-- The `SyntaxGroup` database queries `with_db.rs` consumes, as abstract
functions (the query implementations are outside this file's scope):
`node.tokens(db)` as the list the token iterator yields,
`node.span(db).to_str_range()` as a start/stop pair, and
`node.get_text(db)`. -/
structure SyntaxGroupDb where
  tokens : SyntaxNode → List SyntaxNode
  span_to_str_range : SyntaxNode → Nat × Nat
  get_text : SyntaxNode → String

/-- Model of `SyntaxNodeWithDb`: a node paired with its database. -/
structure SyntaxNodeWithDb where
  node : SyntaxNode
  db : SyntaxGroupDb

/-- Model of `SyntaxNodeWithDbIterator`: the boxed inner token iterator
(as its remaining elements) plus the database. -/
structure SyntaxNodeWithDbIterator where
  inner : List SyntaxNode
  db : SyntaxGroupDb

/-- Model of `<SyntaxNodeWithDbIterator as Iterator>::next`: map the next
inner node (if any) to a `StableToken` whose content is the node's text and
whose span is `Some` of the node's string range. -/
def SyntaxNodeWithDbIterator.next (it : SyntaxNodeWithDbIterator) :
    Option StableToken × SyntaxNodeWithDbIterator :=
  match it.inner with
  | [] => (none, it)
  | node :: rest =>
    let span := it.db.span_to_str_range node
    (some { content := it.db.get_text node
            span := some { start := span.1, stop := span.2 } },
     { it with inner := rest })

/-- Model of `ToStableTokenStream::to_stable_token_stream` for
`SyntaxNodeWithDb`: an iterator over `self.node.tokens(self.db)` with the
same database. -/
def SyntaxNodeWithDb.to_stable_token_stream (s : SyntaxNodeWithDb) :
    SyntaxNodeWithDbIterator :=
  { inner := s.db.tokens s.node, db := s.db }

/-- Drain an iterator by repeated `next`, with fuel. -/
def collectAux : Nat → SyntaxNodeWithDbIterator → List StableToken
  | 0, _ => []
  | fuel + 1, it =>
    match it.next with
    | (none, _) => []
    | (some t, it') => t :: collectAux fuel it'

/-- The full stream an iterator yields (its inner list is finite, so its
length is enough fuel). -/
def collectTokens (it : SyntaxNodeWithDbIterator) : List StableToken :=
  collectAux it.inner.length it

/-- The token `next` builds from one inner node. -/
def mkStableToken (db : SyntaxGroupDb) (node : SyntaxNode) : StableToken :=
  { content := db.get_text node
    span := some { start := (db.span_to_str_range node).1
                   stop := (db.span_to_str_range node).2 } }

end StableTok

namespace LS

/-- A decoder that accepts every params value unchanged (used to instantiate
theorems at concrete inputs). -/
def decOkAll : ParamsDecoder := fun _ p => Except.ok p

/-- A decoder that rejects every params value (used to instantiate theorems
at concrete inputs). -/
def decFailAll : ParamsDecoder := fun _ _ => Except.error "invalid params"

/-- Every key in the response-handler map is a numeric id in `[1, next)`. -/
def HandlersBounded (hs : List (RequestId × ResponseBuilderFn)) (next : Int) : Prop :=
  ∀ p ∈ hs, ∃ j : Int, p.1 = RequestId.num j ∧ 1 ≤ j ∧ j < next

/-- The id-allocation invariant: the outbound request ids sent so far are
exactly 1, 2, …, k in order, and the counter stands at k + 1. -/
def IdsInv (rq : Requester) : Prop :=
  sentRequestIds rq.sender.sent
      = consecIds (sentRequestIds rq.sender.sent).length ∧
  rq.next_request_id = (sentRequestIds rq.sender.sent).length + 1

/-- The full requester invariant on a connection all of whose sends succeed:
the send oracle reports only successes, the id-allocation invariant holds,
and every registered handler key lies strictly below the counter. -/
structure ReqInv (rq : Requester) : Prop where
  outcomes_nil : rq.sender.outcomes = []
  ids : IdsInv rq
  bounded : HandlersBounded rq.response_handlers rq.next_request_id

/-- A connection whose first send fails (channel hiccup) and whose later
sends succeed. -/
def failingSendClient : Client :=
  Client.new { outcomes := [false], sent := [] }

/-- First outbound request on the failing connection. -/
def cexEv1 : ClientEvent :=
  ClientEvent.outboundReq "window/workDoneProgress/create" Json.null
    ResultType.unitTy (fun _ => Task.nothing)

/-- Second outbound request on the failing connection. -/
def cexEv2 : ClientEvent :=
  ClientEvent.outboundReq "workspace/configuration" Json.null
    ResultType.unitTy (fun _ => Task.nothing)

/-- The requester after the first (failed-send) request. -/
def cexAfterFirst : Requester :=
  stepEvent failingSendClient.requester cexEv1

/-- The requester after the second request. -/
def cexAfterSecond : Requester :=
  stepEvent cexAfterFirst cexEv2

end LS

open LS
open StableTok

theorem routeRequest_eq_none_of_unknown (dec : ParamsDecoder) (req : Request)
    (h : req.method ∉ Api.requestMethods) : Api.routeRequest dec req = none := by
  unfold Api.routeRequest
  split
  all_goals first
    | rfl
    | (rename_i heq; exact absurd (by simp [Api.requestMethods, heq]) h)

/-- C1: for every inbound request whose method string is not one of the
registered request methods, `route_request` returns the Nothing task, and
executing that task emits no outbound message at all — in particular no
response for the request's id. -/
theorem claim_C1_unknown_request_method (dec : ParamsDecoder) (req : Request)
    (localEmits : LocalWork → List Message)
    (bgEmits : BackgroundSchedule → BgWork → List Message)
    (h : req.method ∉ Api.requestMethods) :
    Api.request dec req = Task.nothing ∧
    Task.execEmits localEmits bgEmits (Api.request dec req) = [] := by
  have hr : Api.routeRequest dec req = none := routeRequest_eq_none_of_unknown dec req h
  refine ⟨?_, ?_⟩ <;> simp [Api.request, hr, Task.execEmits]

theorem claim_C1_witness :
    "foo/bar" ∉ Api.requestMethods ∧
    (Api.request decOkAll { id := RequestId.num 7, method := "foo/bar", params := Json.null }
        = Task.nothing ∧
     Task.execEmits (fun _ => []) (fun _ _ => [])
        (Api.request decOkAll { id := RequestId.num 7, method := "foo/bar", params := Json.null })
        = []) :=
  ⟨by decide,
   claim_C1_unknown_request_method decOkAll
     { id := RequestId.num 7, method := "foo/bar", params := Json.null }
     (fun _ => []) (fun _ _ => []) (by decide)⟩

/-- C2: for every inbound request whose method is registered but whose params
fail to decode into the handler's expected parameter type, `route_request`
returns an Immediate task carrying an error result whose code is the
internal-error protocol code, addressed to the exact id of the inbound
request. -/
theorem claim_C2_decode_failure_immediate (dec : ParamsDecoder) (req : Request)
    (e : String) (hmem : req.method ∈ Api.requestMethods)
    (hdec : dec req.method req.params = Except.error e) :
    Api.request dec req =
      Task.immediate req.id (Except.error
        { code := ErrorCode.InternalError
          error := { message := "JSON parsing failure:\n" ++ e } }) := by
  obtain ⟨id, m, params⟩ := req
  simp only [Api.requestMethods, List.mem_cons, List.not_mem_nil, or_false] at hmem
  simp only at hdec
  rcases hmem with h | h | h | h | h | h | h | h | h | h <;> subst h <;>
    simp [Api.request, Api.routeRequest, Api.background_request_task,
      Api.local_request_task, Api.cast_request, Except.map, hdec]

theorem claim_C2_witness :
    "textDocument/hover" ∈ Api.requestMethods ∧
    decFailAll "textDocument/hover" Json.null = Except.error "invalid params" ∧
    Api.request decFailAll
        { id := RequestId.num 3, method := "textDocument/hover", params := Json.null }
      = Task.immediate (RequestId.num 3) (Except.error
          { code := ErrorCode.InternalError
            error := { message := "JSON parsing failure:\ninvalid params" } }) :=
  ⟨by decide, rfl,
   claim_C2_decode_failure_immediate decFailAll
     { id := RequestId.num 3, method := "textDocument/hover", params := Json.null }
     "invalid params" (by decide) rfl⟩

/-- C4: a response to a server-issued request that carries an error field,
consumed through the builder registered by `Requester::request`, never
invokes the registered response handler and produces the Nothing task; the
same holds end to end through `pop_response_task` when that builder is the
registered one. -/
theorem claim_C4_error_response_drops_handler (rt : ResultType)
    (response_handler : Json → Task) (resp : Response) (err : ResponseError)
    (he : resp.error = some err) :
    responseBuilder rt response_handler resp = (Task.nothing, []) ∧
    (∀ rq : Requester,
      lookupHandler rq.response_handlers resp.id
          = some (responseBuilder rt response_handler) →
      (rq.pop_response_task resp).2 = (Task.nothing, [])) := by
  have hb : responseBuilder rt response_handler resp = (Task.nothing, []) := by
    obtain ⟨id, result, error⟩ := resp
    simp only at he
    subst he
    rfl
  refine ⟨hb, fun rq hl => ?_⟩
  simp [Requester.pop_response_task, hl, hb]

theorem claim_C4_witness :
    ({ id := RequestId.num 1, result := none,
       error := some { code := -32000, message := "denied" } } : Response).error
        = some { code := -32000, message := "denied" } ∧
    responseBuilder ResultType.unitTy (fun _ => Task.localTask (LocalWork.handlerWork 0))
        { id := RequestId.num 1, result := none,
          error := some { code := -32000, message := "denied" } }
      = (Task.nothing, []) :=
  ⟨rfl,
   (claim_C4_error_response_drops_handler ResultType.unitTy
     (fun _ => Task.localTask (LocalWork.handlerWork 0))
     { id := RequestId.num 1, result := none,
       error := some { code := -32000, message := "denied" } }
     { code := -32000, message := "denied" } rfl).1⟩

theorem lookupHandler_removeHandler (hs : List (RequestId × ResponseBuilderFn))
    (id : RequestId) : lookupHandler (removeHandler hs id) id = none := by
  induction hs with
  | nil => rfl
  | cons p t ih =>
    by_cases h : p.1 = id
    · simp only [removeHandler, lookupHandler, List.filter_cons, h] at ih ⊢
      simp [ih]
    · simp only [removeHandler, lookupHandler, List.filter_cons, List.find?_cons, h] at ih ⊢
      simp [h, ih]

/-- C5: each pending response handler is consumed at most once:
`pop_response_task` removes the handler for the response's id before invoking
it (afterwards no handler is registered under that id), a call for an id with
no registered handler returns the Nothing task without any other effect, and
a second call with the same id behaves exactly as the no-handler case. -/
theorem claim_C5_handler_consumed_once (rq : Requester) (resp : Response) :
    lookupHandler ((rq.pop_response_task resp).1).response_handlers resp.id = none ∧
    (lookupHandler rq.response_handlers resp.id = none →
      rq.pop_response_task resp = (rq, (Task.nothing, []))) ∧
    ((rq.pop_response_task resp).1).pop_response_task resp
      = ((rq.pop_response_task resp).1, (Task.nothing, [])) := by
  have hgone :
      lookupHandler ((rq.pop_response_task resp).1).response_handlers resp.id = none := by
    unfold Requester.pop_response_task
    cases hl : lookupHandler rq.response_handlers resp.id with
    | none => simpa using hl
    | some handler => simpa using lookupHandler_removeHandler rq.response_handlers resp.id
  have hnone : ∀ rq' : Requester,
      lookupHandler rq'.response_handlers resp.id = none →
      rq'.pop_response_task resp = (rq', (Task.nothing, [])) := by
    intro rq' h
    unfold Requester.pop_response_task
    rw [h]
  exact ⟨hgone, hnone rq, hnone _ hgone⟩

theorem claim_C5_witness :
    lookupHandler
        (((Client.new { outcomes := [], sent := [] }).requester.pop_response_task
          { id := RequestId.num 1, result := none, error := none }).1).response_handlers
        (RequestId.num 1) = none ∧
    (Client.new { outcomes := [], sent := [] }).requester.pop_response_task
        { id := RequestId.num 1, result := none, error := none }
      = ((Client.new { outcomes := [], sent := [] }).requester, (Task.nothing, [])) :=
  have t := claim_C5_handler_consumed_once
    (Client.new { outcomes := [], sent := [] }).requester
    { id := RequestId.num 1, result := none, error := none }
  ⟨t.1, t.2.1 rfl⟩

/-- C6: an `LSPError`'s textual rendering (`Display` and `Debug`) equals the
rendering of the underlying cause only, is independent of the protocol error
code, and in the wire error response built by `Responder::respond` the code
appears as the numeric error-code field while the message field is exactly
the rendered cause. -/
theorem claim_C6_error_envelope_rendering (e : LSPError) :
    LSPError.displayFmt e = e.error.message ∧
    LSPError.debugFmt e = e.error.message ∧
    (∀ c : ErrorCode,
      LSPError.displayFmt { code := c, error := e.error } = LSPError.displayFmt e ∧
      LSPError.debugFmt { code := c, error := e.error } = LSPError.debugFmt e) ∧
    (∀ id : RequestId,
      respondMessage id (Except.error e)
        = { id := id, result := none
            error := some { code := e.code.toInt, message := LSPError.displayFmt e } }) :=
  ⟨rfl, rfl, fun _ => ⟨rfl, rfl⟩, fun _ => rfl⟩

/-- C9: a response to a server-issued request carrying neither a result nor
an error invokes the registered handler with a synthesized unit value when
the expected result type is the unit type, but the task the handler produces
is discarded: the builder returns the Nothing task in this branch regardless
of what the handler returns, and also when the expected type is not unit
(where the handler is not invoked at all). -/
theorem claim_C9_empty_response_unit (response_handler : Json → Task) (resp : Response)
    (he : resp.error = none) (hr : resp.result = none) :
    responseBuilder ResultType.unitTy response_handler resp
      = (Task.nothing, [Json.null]) ∧
    (∀ d : Json → Option Json,
      responseBuilder (ResultType.otherTy d) response_handler resp
        = (Task.nothing, [])) := by
  obtain ⟨id, result, error⟩ := resp
  simp only at he hr
  subst he
  subst hr
  exact ⟨rfl, fun _ => rfl⟩

theorem claim_C9_witness :
    responseBuilder ResultType.unitTy (fun _ => Task.localTask (LocalWork.handlerWork 1))
        { id := RequestId.num 2, result := none, error := none }
      = (Task.nothing, [Json.null]) ∧
    responseBuilder (ResultType.otherTy fun v => some v)
        (fun _ => Task.localTask (LocalWork.handlerWork 1))
        { id := RequestId.num 2, result := none, error := none }
      = (Task.nothing, []) :=
  have t := claim_C9_empty_response_unit
    (fun _ => Task.localTask (LocalWork.handlerWork 1))
    { id := RequestId.num 2, result := none, error := none } rfl rfl
  ⟨t.1, t.2 (fun v => some v)⟩

/-- C7: `route_request` assigns schedule classes per the router table: the
navigation, hover, completion and code-action methods yield Background tasks
in the LatencySensitive class; the formatting method a Background task in the
Fmt class; the semantic-token, macro-expansion and crate-inspection methods
Background tasks in the Worker class; and the execute-command method a Local
task. -/
theorem claim_C7_schedule_classes (dec : ParamsDecoder) :
    (∀ id params p, dec "textDocument/definition" params = Except.ok p →
      (Api.request dec { id := id, method := "textDocument/definition", params := params }).shape
        = TaskShape.backgroundShape BackgroundSchedule.LatencySensitive) ∧
    (∀ id params p, dec "textDocument/hover" params = Except.ok p →
      (Api.request dec { id := id, method := "textDocument/hover", params := params }).shape
        = TaskShape.backgroundShape BackgroundSchedule.LatencySensitive) ∧
    (∀ id params p, dec "textDocument/completion" params = Except.ok p →
      (Api.request dec { id := id, method := "textDocument/completion", params := params }).shape
        = TaskShape.backgroundShape BackgroundSchedule.LatencySensitive) ∧
    (∀ id params p, dec "textDocument/codeAction" params = Except.ok p →
      (Api.request dec { id := id, method := "textDocument/codeAction", params := params }).shape
        = TaskShape.backgroundShape BackgroundSchedule.LatencySensitive) ∧
    (∀ id params p, dec "textDocument/formatting" params = Except.ok p →
      (Api.request dec { id := id, method := "textDocument/formatting", params := params }).shape
        = TaskShape.backgroundShape BackgroundSchedule.Fmt) ∧
    (∀ id params p, dec "textDocument/semanticTokens/full" params = Except.ok p →
      (Api.request dec
          { id := id, method := "textDocument/semanticTokens/full", params := params }).shape
        = TaskShape.backgroundShape BackgroundSchedule.Worker) ∧
    (∀ id params p, dec "cairo/expandMacro" params = Except.ok p →
      (Api.request dec { id := id, method := "cairo/expandMacro", params := params }).shape
        = TaskShape.backgroundShape BackgroundSchedule.Worker) ∧
    (∀ id params p, dec "cairo/viewAnalyzedCrates" params = Except.ok p →
      (Api.request dec { id := id, method := "cairo/viewAnalyzedCrates", params := params }).shape
        = TaskShape.backgroundShape BackgroundSchedule.Worker) ∧
    (∀ id params p, dec "workspace/executeCommand" params = Except.ok p →
      (Api.request dec { id := id, method := "workspace/executeCommand", params := params }).shape
        = TaskShape.localShape) := by
  refine ⟨?_, ?_, ?_, ?_, ?_, ?_, ?_, ?_, ?_⟩ <;>
    (intro id params p h
     simp [Api.request, Api.routeRequest, Api.background_request_task,
       Api.local_request_task, Api.cast_request, Except.map, h, Task.shape])

theorem claim_C7_witness :
    (Api.request decOkAll
        { id := RequestId.num 1, method := "textDocument/definition", params := Json.null }).shape
      = TaskShape.backgroundShape BackgroundSchedule.LatencySensitive ∧
    (Api.request decOkAll
        { id := RequestId.num 1, method := "textDocument/hover", params := Json.null }).shape
      = TaskShape.backgroundShape BackgroundSchedule.LatencySensitive ∧
    (Api.request decOkAll
        { id := RequestId.num 1, method := "textDocument/completion", params := Json.null }).shape
      = TaskShape.backgroundShape BackgroundSchedule.LatencySensitive ∧
    (Api.request decOkAll
        { id := RequestId.num 1, method := "textDocument/codeAction", params := Json.null }).shape
      = TaskShape.backgroundShape BackgroundSchedule.LatencySensitive ∧
    (Api.request decOkAll
        { id := RequestId.num 1, method := "textDocument/formatting", params := Json.null }).shape
      = TaskShape.backgroundShape BackgroundSchedule.Fmt ∧
    (Api.request decOkAll
        { id := RequestId.num 1, method := "textDocument/semanticTokens/full",
          params := Json.null }).shape
      = TaskShape.backgroundShape BackgroundSchedule.Worker ∧
    (Api.request decOkAll
        { id := RequestId.num 1, method := "cairo/expandMacro", params := Json.null }).shape
      = TaskShape.backgroundShape BackgroundSchedule.Worker ∧
    (Api.request decOkAll
        { id := RequestId.num 1, method := "cairo/viewAnalyzedCrates", params := Json.null }).shape
      = TaskShape.backgroundShape BackgroundSchedule.Worker ∧
    (Api.request decOkAll
        { id := RequestId.num 1, method := "workspace/executeCommand", params := Json.null }).shape
      = TaskShape.localShape :=
  have t := claim_C7_schedule_classes decOkAll
  ⟨t.1 (RequestId.num 1) Json.null Json.null rfl,
   t.2.1 (RequestId.num 1) Json.null Json.null rfl,
   t.2.2.1 (RequestId.num 1) Json.null Json.null rfl,
   t.2.2.2.1 (RequestId.num 1) Json.null Json.null rfl,
   t.2.2.2.2.1 (RequestId.num 1) Json.null Json.null rfl,
   t.2.2.2.2.2.1 (RequestId.num 1) Json.null Json.null rfl,
   t.2.2.2.2.2.2.1 (RequestId.num 1) Json.null Json.null rfl,
   t.2.2.2.2.2.2.2.1 (RequestId.num 1) Json.null Json.null rfl,
   t.2.2.2.2.2.2.2.2 (RequestId.num 1) Json.null Json.null rfl⟩

theorem routeNotification_eq_none_of_unknown (dec : ParamsDecoder) (n : Notification)
    (h : n.method ∉ Api.notificationMethods) : Api.routeNotification dec n = none := by
  unfold Api.routeNotification
  split
  all_goals first
    | rfl
    | (rename_i heq; exact absurd (by simp [Api.notificationMethods, heq]) h)

theorem routeNotification_cases (dec : ParamsDecoder) (n : Notification) :
    Api.routeNotification dec n = none ∨
    Api.routeNotification dec n = some (Api.local_notification_task dec n.method n) := by
  unfold Api.routeNotification
  split
  all_goals first
    | exact Or.inl rfl
    | (rename_i heq; exact Or.inr (by rw [heq]))

/-- C8: for every inbound notification, `route_notification` returns either
the Nothing task (when the method is unknown, or when parameter decoding
fails — in both cases emitting nothing) or a Local task; it never returns an
Immediate or Background task. -/
theorem claim_C8_notification_routing (dec : ParamsDecoder) (n : Notification) :
    (n.method ∉ Api.notificationMethods → Api.notification dec n = Task.nothing) ∧
    (∀ e, dec n.method n.params = Except.error e →
      Api.notification dec n = Task.nothing) ∧
    ((Api.notification dec n).shape = TaskShape.nothingShape ∨
     (Api.notification dec n).shape = TaskShape.localShape) ∧
    (∀ (localEmits : LocalWork → List Message)
       (bgEmits : BackgroundSchedule → BgWork → List Message),
      Task.execEmits localEmits bgEmits Task.nothing = []) := by
  refine ⟨?_, ?_, ?_, fun _ _ => rfl⟩
  · intro h
    have hr := routeNotification_eq_none_of_unknown dec n h
    simp [Api.notification, hr]
  · intro e he
    rcases routeNotification_cases dec n with h | h
    · simp [Api.notification, h]
    · simp [Api.notification, h, Api.local_notification_task, Api.cast_notification,
        he, Except.map]
  · rcases routeNotification_cases dec n with h | h
    · exact Or.inl (by simp [Api.notification, h, Task.shape])
    · cases hd : dec n.method n.params with
      | ok p =>
        exact Or.inr (by
          simp [Api.notification, h, Api.local_notification_task, Api.cast_notification,
            hd, Except.map, Task.shape])
      | error e =>
        exact Or.inl (by
          simp [Api.notification, h, Api.local_notification_task, Api.cast_notification,
            hd, Except.map, Task.shape])

theorem claim_C8_witness :
    "foo" ∉ Api.notificationMethods ∧
    Api.notification decFailAll { method := "foo", params := Json.null } = Task.nothing ∧
    decFailAll "foo" Json.null = Except.error "invalid params" ∧
    ((Api.notification decFailAll { method := "textDocument/didOpen", params := Json.null }).shape
        = TaskShape.nothingShape ∨
     (Api.notification decFailAll { method := "textDocument/didOpen", params := Json.null }).shape
        = TaskShape.localShape) :=
  have t := claim_C8_notification_routing decFailAll { method := "foo", params := Json.null }
  have t2 := claim_C8_notification_routing decFailAll
    { method := "textDocument/didOpen", params := Json.null }
  ⟨by decide, t.1 (by decide), rfl, t2.2.2.1⟩

theorem collectAux_eq_map (db : SyntaxGroupDb) (l : List SyntaxNode) :
    collectAux l.length { inner := l, db := db } = l.map (mkStableToken db) := by
  induction l with
  | nil => rfl
  | cons x t ih =>
    simp [collectAux, SyntaxNodeWithDbIterator.next, mkStableToken, ih]

/-- C10: for every syntax node and database, the stream returned by
`to_stable_token_stream` yields exactly one `StableToken` per element of the
node's underlying token iterator, in the same order and with the same count;
each yielded token has content equal to that token node's text and span equal
to `Some` of the node's string range (never `None`), and `next` returns
`None` exactly when the inner iterator is exhausted. -/
theorem claim_C10_stable_token_stream (s : SyntaxNodeWithDb) :
    collectTokens s.to_stable_token_stream
      = (s.db.tokens s.node).map (mkStableToken s.db) ∧
    (collectTokens s.to_stable_token_stream).length = (s.db.tokens s.node).length ∧
    ((collectTokens s.to_stable_token_stream).all fun t => t.span.isSome) = true ∧
    (∀ it : SyntaxNodeWithDbIterator, it.next.1 = none ↔ it.inner = []) := by
  have h : collectTokens s.to_stable_token_stream
      = (s.db.tokens s.node).map (mkStableToken s.db) :=
    collectAux_eq_map s.db (s.db.tokens s.node)
  refine ⟨h, by simp [h], ?_, ?_⟩
  · rw [h]
    simp [List.all_eq_true, mkStableToken]
  · intro it
    obtain ⟨inner, db⟩ := it
    cases inner <;> simp [SyntaxNodeWithDbIterator.next]

theorem sentRequestIds_append (a b : List Message) :
    sentRequestIds (a ++ b) = sentRequestIds a ++ sentRequestIds b := by
  simp [sentRequestIds, List.filterMap_append]

theorem consecIds_succ (k : Nat) :
    consecIds (k + 1) = consecIds k ++ [RequestId.num ((k : Int) + 1)] := by
  simp [consecIds, List.range_succ]

theorem lookupHandler_isNone_of_bounded :
    ∀ (hs : List (RequestId × ResponseBuilderFn)) (next : Int),
      HandlersBounded hs next → lookupHandler hs (RequestId.num next) = none := by
  intro hs
  induction hs with
  | nil => intro next _; rfl
  | cons p t ih =>
    intro next h
    obtain ⟨j, hj, hge, hlt⟩ := h p (List.mem_cons_self p t)
    have hne : p.1 ≠ RequestId.num next := by
      rw [hj]
      intro hc
      injection hc with hc'
      omega
    have ht := ih next fun q hq => h q (List.mem_cons_of_mem p hq)
    simp only [lookupHandler, List.find?] at ht ⊢
    rw [show (decide (p.1 = RequestId.num next)) = false by simp [hne]]
    exact ht

theorem request_step_ok (outs : List Bool) (sent : List Message) (next : Int)
    (hs : List (RequestId × ResponseBuilderFn)) (m : String) (p : Json)
    (rt : ResultType) (hd : Json → Task)
    (hout : outs = [] ∨ outs.head? = some true) :
    Requester.request
        { sender := { outcomes := outs, sent := sent }
          next_request_id := next, response_handlers := hs } m p rt hd
      = ({ sender := { outcomes := outs.tail,
                       sent := sent ++ [Message.request (RequestId.num next) m p] }
           next_request_id := wrapI32 (next + 1)
           response_handlers :=
             insertHandler hs (RequestId.num next) (responseBuilder rt hd) },
         Except.ok ()) := by
  rcases hout with h | h
  · subst h
    rfl
  · cases outs with
    | nil => simp at h
    | cons b rest =>
      cases b
      · simp at h
      · rfl

theorem request_step_fail (outs : List Bool) (sent : List Message) (next : Int)
    (hs : List (RequestId × ResponseBuilderFn)) (m : String) (p : Json)
    (rt : ResultType) (hd : Json → Task) :
    Requester.request
        { sender := { outcomes := false :: outs, sent := sent }
          next_request_id := next, response_handlers := hs } m p rt hd
      = ({ sender := { outcomes := outs, sent := sent }
           next_request_id := next
           response_handlers :=
             insertHandler hs (RequestId.num next) (responseBuilder rt hd) },
         Except.error "channel closed") := rfl

theorem pop_fields (rq : Requester) (resp : Response) :
    ((rq.pop_response_task resp).1).sender = rq.sender ∧
    ((rq.pop_response_task resp).1).next_request_id = rq.next_request_id ∧
    ∀ q ∈ ((rq.pop_response_task resp).1).response_handlers,
      q ∈ rq.response_handlers := by
  unfold Requester.pop_response_task
  cases hl : lookupHandler rq.response_handlers resp.id with
  | none => exact ⟨rfl, rfl, fun q hq => hq⟩
  | some handler =>
    refine ⟨rfl, rfl, fun q hq => ?_⟩
    simp only [removeHandler] at hq
    exact List.mem_of_mem_filter hq

theorem idsInv_sent_step (sent : List Message) (next : Int) (m : String) (p : Json)
    (hc : sentRequestIds sent = consecIds (sentRequestIds sent).length)
    (hn : next = (sentRequestIds sent).length + 1) :
    sentRequestIds (sent ++ [Message.request (RequestId.num next) m p])
      = consecIds
          (sentRequestIds (sent ++ [Message.request (RequestId.num next) m p])).length ∧
    next + 1
      = (sentRequestIds (sent ++ [Message.request (RequestId.num next) m p])).length + 1 := by
  have happ : sentRequestIds (sent ++ [Message.request (RequestId.num next) m p])
      = sentRequestIds sent ++ [RequestId.num next] := by
    rw [sentRequestIds_append]
    rfl
  constructor
  · rw [happ, List.length_append, List.length_singleton, consecIds_succ, ← hc, hn]
  · rw [happ, List.length_append, List.length_singleton, hn]
    push_cast
    ring

theorem wrapI32_eq_self (m : Int) (h1 : -2147483648 ≤ m) (h2 : m ≤ 2147483647) :
    wrapI32 m = m := by
  unfold wrapI32
  omega

theorem sentLen_step_resp (rq : Requester) (resp : Response) :
    sentRequestIds ((rq.pop_response_task resp).1).sender.sent
      = sentRequestIds rq.sender.sent := by
  obtain ⟨hsend, -, -⟩ := pop_fields rq resp
  rw [hsend]

theorem sentRequestIds_req_singleton (id : RequestId) (m : String) (p : Json) :
    sentRequestIds [Message.request id m p] = [id] := rfl

theorem sentLen_step_req (rq : Requester) (m : String) (p : Json) (rt : ResultType)
    (hd : Json → Task) :
    (sentRequestIds ((rq.request m p rt hd).1).sender.sent).length
      ≤ (sentRequestIds rq.sender.sent).length + 1 := by
  obtain ⟨⟨outs, sent⟩, next, hs⟩ := rq
  cases outs with
  | nil =>
    rw [request_step_ok [] sent next hs m p rt hd (Or.inl rfl)]
    simp [sentRequestIds_append, sentRequestIds_req_singleton]
  | cons b rest =>
    cases b
    · rw [request_step_fail]
      simp
    · rw [request_step_ok (true :: rest) sent next hs m p rt hd (Or.inr rfl)]
      simp [sentRequestIds_append, sentRequestIds_req_singleton]

theorem idsInv_step_resp (rq : Requester) (resp : Response) (h : IdsInv rq) :
    IdsInv (stepEvent rq (ClientEvent.inboundResp resp)) := by
  obtain ⟨hc, hn⟩ := h
  obtain ⟨hsend, hnext, -⟩ := pop_fields rq resp
  exact ⟨by rw [stepEvent, hsend]; exact hc, by rw [stepEvent, hsend, hnext]; exact hn⟩

theorem idsInv_step_req (rq : Requester) (m : String) (p : Json) (rt : ResultType)
    (hd : Json → Task) (h : IdsInv rq)
    (hbound : (sentRequestIds rq.sender.sent).length ≤ 2147483645) :
    IdsInv (stepEvent rq (ClientEvent.outboundReq m p rt hd)) := by
  obtain ⟨hc, hn⟩ := h
  obtain ⟨⟨outs, sent⟩, next, hs⟩ := rq
  simp only at hc hn hbound
  have hwrap : wrapI32 (next + 1) = next + 1 := by
    apply wrapI32_eq_self <;> omega
  cases outs with
  | nil =>
    rw [stepEvent, request_step_ok [] sent next hs m p rt hd (Or.inl rfl), hwrap]
    exact idsInv_sent_step sent next m p hc hn
  | cons b rest =>
    cases b
    · rw [stepEvent, request_step_fail]
      exact ⟨hc, hn⟩
    · rw [stepEvent,
        request_step_ok (true :: rest) sent next hs m p rt hd (Or.inr rfl), hwrap]
      exact idsInv_sent_step sent next m p hc hn

theorem handlersBounded_insert (hs : List (RequestId × ResponseBuilderFn)) (next : Int)
    (b : ResponseBuilderFn) (h : HandlersBounded hs next) (hpos : 1 ≤ next) :
    HandlersBounded (insertHandler hs (RequestId.num next) b) (next + 1) := by
  intro q hq
  simp only [insertHandler, List.mem_cons, List.mem_filter] at hq
  rcases hq with rfl | ⟨hmem, _⟩
  · exact ⟨next, rfl, hpos, by omega⟩
  · obtain ⟨j, hj, hge, hlt⟩ := h q hmem
    exact ⟨j, hj, hge, by omega⟩

theorem reqInv_step_resp (rq : Requester) (resp : Response) (h : ReqInv rq) :
    ReqInv (stepEvent rq (ClientEvent.inboundResp resp)) := by
  obtain ⟨hout, hids, hbdd⟩ := h
  obtain ⟨hsend, hnext, hsub⟩ := pop_fields rq resp
  refine ⟨by rw [stepEvent, hsend]; exact hout,
    idsInv_step_resp rq resp ⟨hids.1, hids.2⟩, ?_⟩
  intro q hq
  rw [stepEvent] at hq
  rw [stepEvent, hnext]
  exact hbdd q (hsub q hq)

theorem reqInv_step_req (rq : Requester) (m : String) (p : Json) (rt : ResultType)
    (hd : Json → Task) (h : ReqInv rq)
    (hbound : (sentRequestIds rq.sender.sent).length ≤ 2147483645) :
    ReqInv (stepEvent rq (ClientEvent.outboundReq m p rt hd)) := by
  obtain ⟨hout, hids, hbdd⟩ := h
  have hids' := idsInv_step_req rq m p rt hd hids hbound
  obtain ⟨⟨outs, sent⟩, next, hs⟩ := rq
  simp only at hout
  subst hout
  obtain ⟨hc, hn⟩ := hids
  simp only at hn hbound
  have hpos : 1 ≤ next := by omega
  have hwrap : wrapI32 (next + 1) = next + 1 := by
    apply wrapI32_eq_self <;> omega
  refine ⟨?_, hids', ?_⟩
  · rw [stepEvent, request_step_ok [] sent next hs m p rt hd (Or.inl rfl)]
    rfl
  · rw [stepEvent, request_step_ok [] sent next hs m p rt hd (Or.inl rfl), hwrap]
    exact handlersBounded_insert hs next _ hbdd hpos

theorem run_idsInv :
    ∀ (evs : List ClientEvent) (rq : Requester), IdsInv rq →
      (sentRequestIds rq.sender.sent).length + countReqs evs ≤ 2147483646 →
      IdsInv (runEvents rq evs) := by
  intro evs
  induction evs with
  | nil => intro rq h _; exact h
  | cons ev rest ih =>
    intro rq h hbound
    cases ev with
    | inboundResp resp =>
      have hb' : (sentRequestIds
            (stepEvent rq (ClientEvent.inboundResp resp)).sender.sent).length
          + countReqs rest ≤ 2147483646 := by
        have hlen : sentRequestIds
              (stepEvent rq (ClientEvent.inboundResp resp)).sender.sent
            = sentRequestIds rq.sender.sent := sentLen_step_resp rq resp
        rw [hlen]
        have hcnt : countReqs (ClientEvent.inboundResp resp :: rest)
            = countReqs rest := rfl
        omega
      simpa [runEvents, List.foldl] using
        ih _ (idsInv_step_resp rq resp h) hb'
    | outboundReq m p rt hd =>
      have hcnt : countReqs (ClientEvent.outboundReq m p rt hd :: rest)
          = countReqs rest + 1 := rfl
      have hkb : (sentRequestIds rq.sender.sent).length ≤ 2147483645 := by omega
      have hb' : (sentRequestIds
            (stepEvent rq (ClientEvent.outboundReq m p rt hd)).sender.sent).length
          + countReqs rest ≤ 2147483646 := by
        have hle : (sentRequestIds
              (stepEvent rq (ClientEvent.outboundReq m p rt hd)).sender.sent).length
            ≤ (sentRequestIds rq.sender.sent).length + 1 :=
          sentLen_step_req rq m p rt hd
        omega
      simpa [runEvents, List.foldl] using
        ih _ (idsInv_step_req rq m p rt hd h hkb) hb'

theorem noReuse_of_reqInv :
    ∀ (evs : List ClientEvent) (rq : Requester), ReqInv rq →
      (sentRequestIds rq.sender.sent).length + countReqs evs ≤ 2147483646 →
      noReuseCheck rq evs = true ∧ ReqInv (runEvents rq evs) := by
  intro evs
  induction evs with
  | nil => intro rq h _; exact ⟨rfl, h⟩
  | cons ev rest ih =>
    intro rq h hbound
    cases ev with
    | inboundResp resp =>
      have hb' : (sentRequestIds
            (stepEvent rq (ClientEvent.inboundResp resp)).sender.sent).length
          + countReqs rest ≤ 2147483646 := by
        have hlen : sentRequestIds
              (stepEvent rq (ClientEvent.inboundResp resp)).sender.sent
            = sentRequestIds rq.sender.sent := sentLen_step_resp rq resp
        rw [hlen]
        have hcnt : countReqs (ClientEvent.inboundResp resp :: rest)
            = countReqs rest := rfl
        omega
      obtain ⟨hc, hinv⟩ := ih _ (reqInv_step_resp rq resp h) hb'
      refine ⟨?_, by simpa [runEvents, List.foldl] using hinv⟩
      unfold noReuseCheck
      simpa using hc
    | outboundReq m p rt hd =>
      have hcnt : countReqs (ClientEvent.outboundReq m p rt hd :: rest)
          = countReqs rest + 1 := rfl
      have hkb : (sentRequestIds rq.sender.sent).length ≤ 2147483645 := by omega
      have hb' : (sentRequestIds
            (stepEvent rq (ClientEvent.outboundReq m p rt hd)).sender.sent).length
          + countReqs rest ≤ 2147483646 := by
        have hle : (sentRequestIds
              (stepEvent rq (ClientEvent.outboundReq m p rt hd)).sender.sent).length
            ≤ (sentRequestIds rq.sender.sent).length + 1 :=
          sentLen_step_req rq m p rt hd
        omega
      obtain ⟨hc, hinv⟩ := ih _ (reqInv_step_req rq m p rt hd h hkb) hb'
      refine ⟨?_, by simpa [runEvents, List.foldl] using hinv⟩
      unfold noReuseCheck
      have hn := lookupHandler_isNone_of_bounded rq.response_handlers
        rq.next_request_id h.bounded
      simp [hn, hc]

/-- C3 (amended): on a fresh connection, for any run with at most
2^31 − 2 `Requester::request` calls (the counter is an `i32` and would wrap
past `i32::MAX`), the outbound request ids actually sent are 1, 2, 3, … with
no gaps — even if some sends fail — and, provided every send succeeds, an id
is never assigned to a new outbound request while a response handler
registered under that id is still outstanding. (As stated the claim fails:
after a failed send the handler stays registered and the counter does not
advance, so the id is reused; see the counterexample.) -/
theorem claim_C3_monotonic_request_ids (outcomes : List Bool) (evs : List ClientEvent)
    (hcount : countReqs evs ≤ 2147483646) :
    (sentRequestIds
        (runEvents (Client.new { outcomes := outcomes, sent := [] }).requester evs).sender.sent
      = consecIds
          (sentRequestIds
            (runEvents (Client.new { outcomes := outcomes, sent := [] }).requester
              evs).sender.sent).length) ∧
    noReuseCheck (Client.new { outcomes := [], sent := [] }).requester evs = true := by
  constructor
  · have h0 : IdsInv (Client.new { outcomes := outcomes, sent := [] }).requester :=
      ⟨rfl, rfl⟩
    exact (run_idsInv evs _ h0 (by simpa [Client.new, sentRequestIds] using hcount)).1
  · have h0 : ReqInv (Client.new { outcomes := [], sent := [] }).requester :=
      ⟨rfl, ⟨rfl, rfl⟩, fun q hq => absurd hq (List.not_mem_nil q)⟩
    exact (noReuse_of_reqInv evs _ h0
      (by simpa [Client.new, sentRequestIds] using hcount)).1

theorem claim_C3_monotonic_request_ids_witness :
    countReqs [cexEv2] ≤ 2147483646 ∧
    (sentRequestIds
        (runEvents (Client.new { outcomes := [], sent := [] }).requester [cexEv2]).sender.sent
      = consecIds
          (sentRequestIds
            (runEvents (Client.new { outcomes := [], sent := [] }).requester
              [cexEv2]).sender.sent).length) ∧
    noReuseCheck (Client.new { outcomes := [], sent := [] }).requester [cexEv2] = true :=
  have t := claim_C3_monotonic_request_ids [] [cexEv2] (by decide)
  ⟨by decide, t.1, t.2⟩

/-- C3 counterexample: with a first send that fails, the first request's
handler remains registered under id 1 while no request was sent, and the
second `Requester::request` call assigns id 1 again (its request goes out
with id 1) — so an id is reused while a handler registered under it is
outstanding, refuting the claim as stated. -/
theorem claim_C3_counterexample :
    (lookupHandler cexAfterFirst.response_handlers (RequestId.num 1)).isSome = true ∧
    sentRequestIds cexAfterFirst.sender.sent = [] ∧
    cexAfterFirst.next_request_id = 1 ∧
    cexAfterSecond.sender.sent
      = [Message.request (RequestId.num 1) "workspace/configuration" Json.null] ∧
    noReuseCheck failingSendClient.requester [cexEv1, cexEv2] = false :=
  ⟨rfl, rfl, rfl, rfl, rfl⟩
